import Mathlib

/-!
Verification of the Padel Showdown tournament core (src/app.py).

The in-memory data model (`Competidor`, `Partido`, `Torneo`) and the core
operations of the `Torneo` class are embedded as executable Lean functions.
Competitor stat counters only ever accumulate non-negative increments, so they
are `Nat`; the point differential and raw scores may be negative, so they are
`Int`.  The Python dict of competitors (insertion ordered, keyed by `nombre`)
is a `List Competidor`; dict item update becomes an update of every entry
whose `nombre` matches the key.  `random.shuffle` is passed in explicitly as a
`shuffle` function parameter.  Python string comparison is lexicographic on
code points, which is exactly the order of `String` used here.
-/

namespace Padel

/-- Lexicographic comparison of two character lists by code point: the order
Python uses on `str`.  (Lean's builtin `String.lt` has the same semantics but
is implemented by well-founded recursion over byte iterators; this structural
version is used instead so that concrete instances evaluate.) -/
def strLtB : List Char → List Char → Bool
  | [], [] => false
  | [], _ :: _ => true
  | _ :: _, [] => false
  | a :: as, b :: bs =>
    if a.toNat < b.toNat then true
    else if b.toNat < a.toNat then false
    else strLtB as bs

/-- Python `a < b` on strings. -/
def pyStrLt (a b : String) : Bool := strLtB a.data b.data

/-- Python `a <= b` on strings. -/
def pyStrLe (a b : String) : Bool := !(pyStrLt b a)

instance {ε α : Type} [DecidableEq ε] [DecidableEq α] : DecidableEq (Except ε α)
  | .ok a, .ok b =>
      if h : a = b then .isTrue (by rw [h]) else .isFalse (by intro hc; cases hc; exact h rfl)
  | .ok _, .error _ => .isFalse (by intro hc; cases hc)
  | .error _, .ok _ => .isFalse (by intro hc; cases hc)
  | .error e, .error f =>
      if h : e = f then .isTrue (by rw [h]) else .isFalse (by intro hc; cases hc; exact h rfl)

def POINTS_WIN : Nat := 3
def POINTS_DRAW : Nat := 1
def POINTS_LOSS : Nat := 0

/-- Competitor record (`Competidor` dataclass): name, optional pair of member
names, and the cumulative stats `puntos/pg/pe/pp/dif/pj`. -/
structure Competidor where
  nombre : String
  miembros : Option (String × String) := none
  puntos : Nat := 0
  pg : Nat := 0
  pe : Nat := 0
  pp : Nat := 0
  dif : Int := 0
  pj : Nat := 0
deriving DecidableEq, Repr, Inhabited

/-- Match record (`Partido` dataclass). -/
structure Partido where
  comp1 : String
  comp2 : String
  score1 : Option Int := none
  score2 : Option Int := none
  jugado : Bool := false
  ronda : Nat := 1
  cancha : Option String := none
deriving DecidableEq, Repr, Inhabited

/-- Tournament state (`Torneo` dataclass). -/
structure Torneo where
  nombre : String
  modo : String
  ronda_actual : Nat := 0
  competidores : List Competidor := []
  partidos : List Partido := []
  canchas : List String := []
  permitir_byes : Bool := false
  finalizado : Bool := false
deriving DecidableEq, Repr, Inhabited

/-- Zero the stat fields of one competitor (body of `reset_stats_only`). -/
def resetComp (c : Competidor) : Competidor :=
  { c with puntos := 0, pg := 0, pe := 0, pp := 0, dif := 0, pj := 0 }

/-- Source method `Torneo.reset_stats_only`: zero every competitor's stats. -/
def reset_stats_only (cs : List Competidor) : List Competidor :=
  cs.map resetComp

/-- Update the competitor stored under key `name` (Python mutates the dict
entry in place; here every entry whose `nombre` is the key is rewritten). -/
def updateComp (cs : List Competidor) (name : String) (f : Competidor → Competidor) :
    List Competidor :=
  cs.map fun c => if c.nombre = name then f c else c

/-- One iteration of the loop in `Torneo.recompute_all_stats`: skip a match
that was not played, otherwise credit both sides following the source's
sequence of in-place updates.  `int(p.score1)` on a played match is modelled
by `Option.getD 0`; played matches always carry both scores. -/
def applyMatch (cs : List Competidor) (p : Partido) : List Competidor :=
  if p.jugado then
    let s1 := p.score1.getD 0
    let s2 := p.score2.getD 0
    let cs1 := updateComp cs p.comp1 fun c => { c with pj := c.pj + 1 }
    let cs2 := updateComp cs1 p.comp2 fun c => { c with pj := c.pj + 1 }
    let cs3 := updateComp cs2 p.comp1 fun c => { c with dif := c.dif + (s1 - s2) }
    let cs4 := updateComp cs3 p.comp2 fun c => { c with dif := c.dif + (s2 - s1) }
    if s1 > s2 then
      let cs5 := updateComp cs4 p.comp1 fun c =>
        { c with pg := c.pg + 1, puntos := c.puntos + POINTS_WIN }
      updateComp cs5 p.comp2 fun c => { c with pp := c.pp + 1 }
    else if s2 > s1 then
      let cs5 := updateComp cs4 p.comp2 fun c =>
        { c with pg := c.pg + 1, puntos := c.puntos + POINTS_WIN }
      updateComp cs5 p.comp1 fun c => { c with pp := c.pp + 1 }
    else
      let cs5 := updateComp cs4 p.comp1 fun c => { c with pe := c.pe + 1 }
      let cs6 := updateComp cs5 p.comp2 fun c => { c with pe := c.pe + 1 }
      let cs7 := updateComp cs6 p.comp1 fun c => { c with puntos := c.puntos + POINTS_DRAW }
      updateComp cs7 p.comp2 fun c => { c with puntos := c.puntos + POINTS_DRAW }
  else cs

/-- Source method `Torneo.recompute_all_stats`: reset all stats, then fold the credit step
over the whole match log. -/
def recompute_all_stats (t : Torneo) : Torneo :=
  { t with competidores := t.partidos.foldl applyMatch (reset_stats_only t.competidores) }

/-- Source method `Torneo.registrar_competidor`: reject a duplicate name, otherwise append a
fresh competitor (dict insertion appends the new key at the end). -/
def registrar_competidor (t : Torneo) (nombre : String)
    (miembros : Option (String × String) := none) : Except String Torneo :=
  if t.competidores.any (fun c => c.nombre = nombre) then
    .error "Ya existe un competidor con ese nombre."
  else
    .ok { t with competidores :=
      t.competidores ++ [{ nombre := nombre, miembros := miembros }] }

/-- Write `score1`, `score2` and `jugado := true` into the match at position
`i` of the log (the Python method mutates the aliased `Partido` object). -/
def setResult : List Partido → Nat → Int → Int → List Partido
  | [], _, _, _ => []
  | p :: ps, 0, s1, s2 =>
      { p with score1 := some s1, score2 := some s2, jugado := true } :: ps
  | p :: ps, i + 1, s1, s2 => p :: setResult ps i s1 s2

/-- Source method `Torneo.registrar_resultado`: set both scores, mark the match played and
recompute every stat from the full log.  No finalization or sign check. -/
def registrar_resultado (t : Torneo) (i : Nat) (s1 s2 : Int) : Torneo :=
  recompute_all_stats { t with partidos := setResult t.partidos i s1 s2 }

/-- Source method `Torneo.reset_all_matches`: zero stats, drop all matches, reset the round
counter and the finalized flag (the per-match field wipes are made
unobservable by the final `self.partidos = []`). -/
def reset_all_matches (t : Torneo) : Torneo :=
  { t with competidores := reset_stats_only t.competidores,
           partidos := [], ronda_actual := 0, finalizado := false }

/-- Source method `Torneo.total_rondas_posibles`: `max(n - 1, 0) if n > 1 else 0`. -/
def total_rondas_posibles (t : Torneo) : Nat :=
  let n := t.competidores.length
  if n > 1 then n - 1 else 0

/-- Source method `Torneo.display_name`: in "Parejas" mode with members recorded, the label
is the name followed by the member names. -/
def display_name (modo : String) (c : Competidor) : String :=
  if modo = "Parejas" then
    match c.miembros with
    | some m => c.nombre ++ " (" ++ m.1 ++ " / " ++ m.2 ++ ")"
    | none => c.nombre
  else c.nombre

/-- Ascending order on the `EquipoDisplay` column (the single sort key of the
zero-points branch of `leaderboard_df`). -/
def nameAsc (modo : String) (a b : Competidor) : Prop :=
  pyStrLe (display_name modo a) (display_name modo b) = true

instance (modo : String) : DecidableRel (nameAsc modo) := fun a b =>
  inferInstanceAs (Decidable (pyStrLe (display_name modo a) (display_name modo b) = true))

/-- The `sort_values(by=[PTS, Dif, PG, EquipoDisplay], ascending=[F, F, F, T])`
order used by `leaderboard_df` and `_pairings_competitive`. -/
def rankLE (modo : String) (a b : Competidor) : Prop :=
  b.puntos < a.puntos ∨ (a.puntos = b.puntos ∧
    (b.dif < a.dif ∨ (a.dif = b.dif ∧
      (b.pg < a.pg ∨ (a.pg = b.pg ∧ nameAsc modo a b)))))

instance (modo : String) : DecidableRel (rankLE modo) := fun a b =>
  inferInstanceAs (Decidable (b.puntos < a.puntos ∨ (a.puntos = b.puntos ∧
    (b.dif < a.dif ∨ (a.dif = b.dif ∧
      (b.pg < a.pg ∨ (a.pg = b.pg ∧ nameAsc modo a b)))))))

/-- Sum of the `PTS` column of `leaderboard_base` (`df["PTS"].sum()`). -/
def pts_total (t : Torneo) : Nat :=
  (t.competidores.map (fun c => c.puntos)).sum

/-- Source method `Torneo.leaderboard_df`: if the points column sums to zero sort ascending
by display label only, otherwise by the four ranking keys.  Only the row
order matters here, so the result is the ordered competitor list (medal glyph
decoration is presentation only). -/
def leaderboard_df (t : Torneo) : List Competidor :=
  if pts_total t = 0 then
    t.competidores.insertionSort (nameAsc t.modo)
  else
    t.competidores.insertionSort (rankLE t.modo)

/-- Python `range(0, stop, 2)` over natural numbers. -/
def rangeStep2 (stop : Nat) : List Nat :=
  (List.range stop).filter (fun i => i % 2 = 0)

/-- The pairing comprehension
`[(order[i], order[i+1]) for i in range(0, len(order)-1, 2)]`. -/
def sourcePairs (order : List String) : List (String × String) :=
  (rangeStep2 (order.length - 1)).map (fun i => (order.getD i "", order.getD (i + 1) ""))

/-- Ranked competitor names as used by `_pairings_competitive`
(`leaderboard_base` sorted by the four ranking keys, `Nombre` column). -/
def ordered_names (t : Torneo) : List String :=
  (t.competidores.insertionSort (rankLE t.modo)).map (fun c => c.nombre)

/-- Source method `Torneo._pairings_round1`: odd-count check, then pair the shuffled pool
two by two.  The `random.shuffle` is the explicit `shuffle` argument. -/
def pairings_round1 (shuffle : List String → List String) (t : Torneo)
    (nombres : List String) : Except String (List (String × String)) :=
  if nombres.length % 2 == 1 && !t.permitir_byes then
    .error "Número impar de competidores y el permiso de byes está desactivado."
  else
    .ok (sourcePairs (shuffle nombres))

/-- Source method `Torneo._pairings_competitive`: sort by ranking keys, then pair the ranked
order two by two. -/
def pairings_competitive (t : Torneo) : Except String (List (String × String)) :=
  let order := ordered_names t
  if order.length % 2 == 1 && !t.permitir_byes then
    .error "Número impar de competidores y el permiso de byes está desactivado."
  else
    .ok (sourcePairs order)

/-- The `for idx, (a, b) in enumerate(pairs)` loop of `generar_nueva_ronda`:
build the `Partido` records and cycle court labels by index. -/
def asigna_canchas (canchas : List String) (ronda : Nat) :
    Nat → List (String × String) → List Partido
  | _, [] => []
  | idx, (a, b) :: rest =>
      { comp1 := a, comp2 := b, ronda := ronda,
        cancha := if canchas.isEmpty then none
                  else some (canchas.getD (idx % canchas.length) "") }
        :: asigna_canchas canchas ronda (idx + 1) rest

/-- Source method `Torneo.generar_nueva_ronda`: finalization, minimum-count and parity
checks, then round-1 or competitive pairing, court assignment and append to
the match log.  Returns the new state together with the new matches. -/
def generar_nueva_ronda (shuffle : List String → List String) (t : Torneo) :
    Except String (Torneo × List Partido) :=
  if t.finalizado then .error "El torneo ya fue finalizado."
  else
    let nombres := t.competidores.map (fun c => c.nombre)
    let n := nombres.length
    if n < 2 then .error "Se requieren al menos 2 competidores para generar una ronda."
    else if n % 2 == 1 && !t.permitir_byes then
      .error "Cantidad impar de competidores. Activa el permiso de byes o ajusta los competidores."
    else
      let ronda := t.ronda_actual + 1
      match (if ronda == 1 then pairings_round1 shuffle t nombres else pairings_competitive t) with
      | .error e => .error e
      | .ok pairs =>
          let partidos := asigna_canchas t.canchas ronda 0 pairs
          .ok ({ t with ronda_actual := ronda, partidos := t.partidos ++ partidos }, partidos)

/-- The JSON snapshot written by `Torneo.to_json`: a structured document with
exactly the serialized fields (JSON encoding of strings, integers, booleans,
nulls, arrays and objects is faithful, so the document is kept structured). -/
structure TorneoDoc where
  nombre : String
  modo : String
  ronda_actual : Nat
  competidores : List Competidor
  partidos : List Partido
  canchas : List String
  permitir_byes : Bool
  finalizado : Bool
deriving DecidableEq, Repr

/-- Source method `Torneo.to_json`. -/
def to_json (t : Torneo) : TorneoDoc :=
  { nombre := t.nombre, modo := t.modo, ronda_actual := t.ronda_actual,
    competidores := t.competidores, partidos := t.partidos, canchas := t.canchas,
    permitir_byes := t.permitir_byes, finalizado := t.finalizado }

/-- Source method `Torneo.from_json`: rebuild the state from the document, then recompute
every stat from the imported match log. -/
def from_json (d : TorneoDoc) : Torneo :=
  recompute_all_stats
    { nombre := d.nombre, modo := d.modo, ronda_actual := d.ronda_actual,
      competidores := d.competidores, partidos := d.partidos, canchas := d.canchas,
      permitir_byes := d.permitir_byes, finalizado := d.finalizado }

/-- A tournament whose stored stats agree with a full recomputation from its
match log.  Every reachable state satisfies this. -/
def stats_consistent (t : Torneo) : Prop :=
  recompute_all_stats t = t

instance (t : Torneo) : Decidable (stats_consistent t) :=
  inferInstanceAs (Decidable (recompute_all_stats t = t))

/-- The invariant of claim C9: a match is marked played exactly when both of
its scores are present. -/
def scores_ok (t : Torneo) : Prop :=
  ∀ p ∈ t.partidos, p.jugado = true ↔ (p.score1 ≠ none ∧ p.score2 ≠ none)

instance (t : Torneo) : Decidable (scores_ok t) :=
  inferInstanceAs (Decidable (∀ p ∈ t.partidos, _ ↔ _))

/-- Attribution of one played match to one side, written from the spec's
words (one match played, accumulated differential, one win and 3 points for
the strictly higher score, one loss for the other side, one draw and 1 point
each on equal scores).  `own` is this side's score, `opp` the opponent's. -/
def specSide (c : Competidor) (own opp : Int) : Competidor :=
  { c with
    pj := c.pj + 1,
    dif := c.dif + (own - opp),
    pg := if own > opp then c.pg + 1 else c.pg,
    pp := if opp > own then c.pp + 1 else c.pp,
    pe := if own = opp then c.pe + 1 else c.pe,
    puntos := if own > opp then c.puntos + 3
              else if own = opp then c.puntos + 1 else c.puntos }

/-- Spec-side description of one standings-recomputation step: a match with
`played == false` contributes nothing; a played match credits each side by
`specSide`. -/
def specApplyMatch (cs : List Competidor) (p : Partido) : List Competidor :=
  if p.jugado then
    match p.score1, p.score2 with
    | some s1, some s2 =>
        cs.map fun c =>
          if c.nombre = p.comp1 then specSide c s1 s2
          else if c.nombre = p.comp2 then specSide c s2 s1
          else c
    | _, _ => cs
  else cs

/-- Spec-side description of adjacent pairing: rank 1 vs rank 2, rank 3 vs
rank 4, and so on; a trailing odd entry is left unpaired. -/
def specAdjacentPairs : List String → List (String × String)
  | a :: b :: rest => (a, b) :: specAdjacentPairs rest
  | _ => []

/-! Concrete tournaments used to instantiate the claims. -/

/-- Two competitors, one round (the cap `2 - 1 = 1`) already generated and
played, not finalized. -/
def c1t : Torneo :=
  { nombre := "T", modo := "Individual", ronda_actual := 1,
    competidores := [{ nombre := "A", puntos := 3, pg := 1, dif := 3, pj := 1 },
                     { nombre := "B", pp := 1, dif := -3, pj := 1 }],
    partidos := [{ comp1 := "A", comp2 := "B", score1 := some 6, score2 := some 3,
                   jugado := true, ronda := 1 }] }

/-- A finalized tournament with one pending (unplayed) match. -/
def c2t : Torneo :=
  { nombre := "T", modo := "Individual", ronda_actual := 1, finalizado := true,
    competidores := [{ nombre := "A" }, { nombre := "B" }],
    partidos := [{ comp1 := "A", comp2 := "B", ronda := 1 }] }

/-- A finalized tournament with one registered competitor. -/
def c3t : Torneo :=
  { nombre := "T", modo := "Individual", finalizado := true,
    competidores := [{ nombre := "A" }] }

/-- Three competitors, one played match (a draw), one unplayed match. -/
def c4t : Torneo :=
  { nombre := "T", modo := "Individual", ronda_actual := 2,
    competidores := [{ nombre := "A", puntos := 1, pe := 1, pj := 1 },
                     { nombre := "B", puntos := 1, pe := 1, pj := 1 },
                     { nombre := "C" }],
    partidos := [{ comp1 := "A", comp2 := "B", score1 := some 4, score2 := some 4,
                   jugado := true, ronda := 1 },
                 { comp1 := "A", comp2 := "C", ronda := 2 }],
    permitir_byes := true }

/-- Tournament in "Parejas" mode, all stats zero; the name "X" precedes "X !" but the
display label of "X !" precedes the display label of "X" because a space and
the code point of the opening parenthesis sort after the exclamation mark. -/
def c5t : Torneo :=
  { nombre := "T", modo := "Parejas",
    competidores := [{ nombre := "X", miembros := some ("m", "m") },
                     { nombre := "X !", miembros := some ("a", "a") }] }

/-- A tournament with nonzero points, for the nonzero leaderboard branch. -/
def c5u : Torneo :=
  { nombre := "T", modo := "Individual",
    competidores := [{ nombre := "A", puntos := 3, pg := 1, dif := 2, pj := 1 },
                     { nombre := "B", pp := 1, dif := -2, pj := 1 }],
    partidos := [{ comp1 := "A", comp2 := "B", score1 := some 5, score2 := some 3,
                   jugado := true, ronda := 1 }],
    ronda_actual := 1 }

/-- Four zero-stat competitors whose ranked order is A, B, C, D. -/
def c6t : Torneo :=
  { nombre := "T", modo := "Individual",
    competidores := [{ nombre := "A" }, { nombre := "B" },
                     { nombre := "C" }, { nombre := "D" }] }

/-- Two competitors and a single configured court. -/
def c7t : Torneo :=
  { nombre := "T", modo := "Individual", canchas := ["C1"],
    competidores := [{ nombre := "A" }, { nombre := "B" }] }

/-- The tournament state produced by generating round 1 of `c7t` with the
identity shuffle. -/
def c7t2 : Torneo :=
  { nombre := "T", modo := "Individual", ronda_actual := 1, canchas := ["C1"],
    competidores := [{ nombre := "A" }, { nombre := "B" }],
    partidos := [{ comp1 := "A", comp2 := "B", ronda := 1, cancha := some "C1" }] }

/-- The matches of that generated round. -/
def c7ps : List Partido :=
  [{ comp1 := "A", comp2 := "B", ronda := 1, cancha := some "C1" }]

/-- A stats-consistent tournament with one decided match. -/
def c8t : Torneo :=
  { nombre := "T", modo := "Individual", ronda_actual := 1,
    competidores := [{ nombre := "A", puntos := 3, pg := 1, dif := 3, pj := 1 },
                     { nombre := "B", pp := 1, dif := -3, pj := 1 }],
    partidos := [{ comp1 := "A", comp2 := "B", score1 := some 6, score2 := some 3,
                   jugado := true, ronda := 1 }] }

/-- A valid tournament (invariant `scores_ok` holds) with one played and one
pending match. -/
def c9t : Torneo :=
  { nombre := "T", modo := "Individual", ronda_actual := 2, permitir_byes := true,
    competidores := [{ nombre := "A", puntos := 3, pg := 1, dif := 1, pj := 1 },
                     { nombre := "B", pp := 1, dif := -1, pj := 1 }],
    partidos := [{ comp1 := "A", comp2 := "B", score1 := some 6, score2 := some 5,
                   jugado := true, ronda := 1 },
                 { comp1 := "A", comp2 := "B", ronda := 2 }] }

/-- The state produced by generating round 3 of `c9t` with the identity
shuffle. -/
def c9t2 : Torneo :=
  { nombre := "T", modo := "Individual", ronda_actual := 3, permitir_byes := true,
    competidores := [{ nombre := "A", puntos := 3, pg := 1, dif := 1, pj := 1 },
                     { nombre := "B", pp := 1, dif := -1, pj := 1 }],
    partidos := [{ comp1 := "A", comp2 := "B", score1 := some 6, score2 := some 5,
                   jugado := true, ronda := 1 },
                 { comp1 := "A", comp2 := "B", ronda := 2 },
                 { comp1 := "A", comp2 := "B", ronda := 3 }] }

/-- The matches of that generated round. -/
def c9ps : List Partido := [{ comp1 := "A", comp2 := "B", ronda := 3 }]

/-- A snapshot document whose stored stats are correct. -/
def c10d1 : TorneoDoc :=
  { nombre := "T", modo := "Individual", ronda_actual := 1,
    competidores := [{ nombre := "A", puntos := 3, pg := 1, dif := 3, pj := 1 },
                     { nombre := "B", pp := 1, dif := -3, pj := 1 }],
    partidos := [{ comp1 := "A", comp2 := "B", score1 := some 6, score2 := some 3,
                   jugado := true, ronda := 1 }],
    canchas := [], permitir_byes := false, finalizado := false }

/-- The same document with garbled stored stats. -/
def c10d2 : TorneoDoc :=
  { nombre := "T", modo := "Individual", ronda_actual := 1,
    competidores := [{ nombre := "A", puntos := 99, pg := 7, pe := 7, pp := 7, dif := -42, pj := 9 },
                     { nombre := "B", puntos := 1, pg := 2, pe := 3, pp := 4, dif := 5, pj := 6 }],
    partidos := [{ comp1 := "A", comp2 := "B", score1 := some 6, score2 := some 3,
                   jugado := true, ronda := 1 }],
    canchas := [], permitir_byes := false, finalizado := false }

/-! Order facts about the sort relations, needed for sortedness of the
leaderboard. -/

theorem strLtB_asymm : ∀ x y : List Char, strLtB x y = true → strLtB y x = false
  | [], [] => by simp [strLtB]
  | [], _ :: _ => by simp [strLtB]
  | _ :: _, [] => by simp [strLtB]
  | a :: as, b :: bs => by
      simp only [strLtB]
      by_cases h1 : a.toNat < b.toNat
      · have h2 : ¬ b.toNat < a.toNat := by omega
        simp [h1, h2]
      · by_cases h2 : b.toNat < a.toNat
        · simp [h1, h2]
        · simp only [h1, h2, if_false]
          exact strLtB_asymm as bs

theorem strLtB_nonlt_trans :
    ∀ x y z : List Char, strLtB x y = false → strLtB y z = false → strLtB x z = false
  | [], [], _ => fun _ h2 => h2
  | [], _ :: _, _ => fun h1 _ => by simp [strLtB] at h1
  | _ :: _, _, [] => fun _ _ => by simp [strLtB]
  | _ :: _, [], _ :: _ => fun _ h2 => by simp [strLtB] at h2
  | a :: as, b :: bs, c :: cs => fun h1 h2 => by
      simp only [strLtB] at h1 h2 ⊢
      by_cases hab : a.toNat < b.toNat
      · simp [hab] at h1
      · by_cases hbc : b.toNat < c.toNat
        · simp [hbc] at h2
        · have hac : ¬ a.toNat < c.toNat := by omega
          by_cases hca : c.toNat < a.toNat
          · simp [hac, hca]
          · have hba : ¬ b.toNat < a.toNat := by omega
            have hcb : ¬ c.toNat < b.toNat := by omega
            simp only [hab, hba, if_false] at h1
            simp only [hbc, hcb, if_false] at h2
            simp only [hac, hca, if_false]
            exact strLtB_nonlt_trans as bs cs h1 h2

theorem pyStrLe_total (a b : String) : pyStrLe a b = true ∨ pyStrLe b a = true := by
  unfold pyStrLe pyStrLt
  cases h : strLtB b.data a.data
  · left; rfl
  · right
    rw [strLtB_asymm _ _ h]
    rfl

theorem pyStrLe_trans {a b c : String}
    (h1 : pyStrLe a b = true) (h2 : pyStrLe b c = true) : pyStrLe a c = true := by
  unfold pyStrLe pyStrLt at h1 h2 ⊢
  rw [Bool.not_eq_true'] at h1 h2 ⊢
  exact strLtB_nonlt_trans c.data b.data a.data h2 h1

instance (modo : String) : IsTotal Competidor (nameAsc modo) :=
  ⟨fun a b => pyStrLe_total (display_name modo a) (display_name modo b)⟩

instance (modo : String) : IsTrans Competidor (nameAsc modo) :=
  ⟨fun _ _ _ h1 h2 => pyStrLe_trans h1 h2⟩

theorem rankLE_total (modo : String) :
    ∀ a b : Competidor, rankLE modo a b ∨ rankLE modo b a := by
  intro a b
  unfold rankLE
  rcases Nat.lt_trichotomy a.puntos b.puntos with hp | hp | hp
  · right; exact Or.inl hp
  · rcases Int.lt_trichotomy a.dif b.dif with hd | hd | hd
    · right; exact Or.inr ⟨hp.symm, Or.inl hd⟩
    · rcases Nat.lt_trichotomy a.pg b.pg with hg | hg | hg
      · right; exact Or.inr ⟨hp.symm, Or.inr ⟨hd.symm, Or.inl hg⟩⟩
      · rcases pyStrLe_total (display_name modo a) (display_name modo b) with hs | hs
        · left; exact Or.inr ⟨hp, Or.inr ⟨hd, Or.inr ⟨hg, hs⟩⟩⟩
        · right; exact Or.inr ⟨hp.symm, Or.inr ⟨hd.symm, Or.inr ⟨hg.symm, hs⟩⟩⟩
      · left; exact Or.inr ⟨hp, Or.inr ⟨hd, Or.inl hg⟩⟩
    · left; exact Or.inr ⟨hp, Or.inl hd⟩
  · left; exact Or.inl hp

theorem rankLE_trans (modo : String) :
    ∀ a b c : Competidor, rankLE modo a b → rankLE modo b c → rankLE modo a c := by
  intro a b c h1 h2
  unfold rankLE at h1 h2 ⊢
  rcases h1 with hp1 | ⟨hp1, h1⟩
  · rcases h2 with hp2 | ⟨hp2, _⟩
    · exact Or.inl (hp2.trans hp1)
    · exact Or.inl (by omega)
  · rcases h2 with hp2 | ⟨hp2, h2⟩
    · exact Or.inl (by omega)
    · refine Or.inr ⟨hp1.trans hp2, ?_⟩
      rcases h1 with hd1 | ⟨hd1, h1⟩
      · rcases h2 with hd2 | ⟨hd2, _⟩
        · exact Or.inl (hd2.trans hd1)
        · exact Or.inl (by omega)
      · rcases h2 with hd2 | ⟨hd2, h2⟩
        · exact Or.inl (by omega)
        · refine Or.inr ⟨hd1.trans hd2, ?_⟩
          rcases h1 with hg1 | ⟨hg1, h1⟩
          · rcases h2 with hg2 | ⟨hg2, _⟩
            · exact Or.inl (hg2.trans hg1)
            · exact Or.inl (by omega)
          · rcases h2 with hg2 | ⟨hg2, h2⟩
            · exact Or.inl (by omega)
            · exact Or.inr ⟨hg1.trans hg2, pyStrLe_trans h1 h2⟩

instance (modo : String) : IsTotal Competidor (rankLE modo) :=
  ⟨rankLE_total modo⟩

instance (modo : String) : IsTrans Competidor (rankLE modo) :=
  ⟨rankLE_trans modo⟩

/-! Structural facts about the pairing comprehension, court assignment and
result entry. -/

theorem rangeStep2_add_two (m : Nat) :
    rangeStep2 (m + 2) = 0 :: (rangeStep2 m).map (fun i => i + 2) := by
  unfold rangeStep2
  rw [List.range_succ_eq_map, List.range_succ_eq_map, List.map_cons, List.map_map]
  rw [List.filter_cons, List.filter_cons]
  simp only [decide_eq_true_eq]
  rw [if_pos trivial, if_neg (show ¬ Nat.succ 0 % 2 = 0 by decide)]
  rw [List.filter_map]
  congr 1
  have hpred : ∀ i ∈ List.range m,
      ((fun i => decide (i % 2 = 0)) ∘ Nat.succ ∘ Nat.succ) i =
        (fun i => decide (i % 2 = 0)) i := by
    intro i _
    have hmod : Nat.succ (Nat.succ i) % 2 = i % 2 := by omega
    simp [Function.comp, hmod]
  rw [List.filter_congr hpred]
  apply List.map_congr_left
  intro i _
  rfl

theorem sourcePairs_nil : sourcePairs [] = [] := rfl

theorem sourcePairs_single (a : String) : sourcePairs [a] = [] := rfl

theorem sourcePairs_cons_cons (a b : String) (rest : List String) :
    sourcePairs (a :: b :: rest) = (a, b) :: sourcePairs rest := by
  cases rest with
  | nil => rfl
  | cons r rs =>
      unfold sourcePairs
      have hlen : (a :: b :: r :: rs).length - 1 = rs.length + 2 := by
        simp [List.length_cons]
      have hlen2 : (r :: rs).length - 1 = rs.length := by simp [List.length_cons]
      rw [hlen, hlen2, rangeStep2_add_two, List.map_cons, List.map_map]
      congr 1

theorem sourcePairs_eq_spec : ∀ order : List String,
    sourcePairs order = specAdjacentPairs order
  | [] => rfl
  | [_] => rfl
  | a :: b :: rest => by
      rw [sourcePairs_cons_cons, sourcePairs_eq_spec rest]
      rfl

theorem asigna_canchas_length (canchas : List String) (ronda : Nat) :
    ∀ (idx : Nat) (pairs : List (String × String)),
      (asigna_canchas canchas ronda idx pairs).length = pairs.length
  | _, [] => rfl
  | idx, _ :: rest => by
      simp [asigna_canchas, asigna_canchas_length canchas ronda (idx + 1) rest]

theorem asigna_canchas_getD (canchas : List String) (ronda : Nat) :
    ∀ (pairs : List (String × String)) (idx i : Nat), i < pairs.length →
      ((asigna_canchas canchas ronda idx pairs).getD i default).cancha =
        (if canchas.isEmpty then none
         else some (canchas.getD ((idx + i) % canchas.length) ""))
  | [], _, i, hi => absurd hi (by simp)
  | _ :: _, idx, 0, _ => by simp [asigna_canchas]
  | _ :: rest, idx, i + 1, hi => by
      have hi2 : i < rest.length := by
        simpa [List.length_cons] using Nat.lt_of_succ_lt_succ hi
      have := asigna_canchas_getD canchas ronda rest (idx + 1) i hi2
      simp only [asigna_canchas, List.getD_cons_succ]
      rw [this]
      have : idx + 1 + i = idx + (i + 1) := by omega
      rw [this]

theorem asigna_canchas_fresh (canchas : List String) (ronda : Nat) :
    ∀ (idx : Nat) (pairs : List (String × String)),
      ∀ q ∈ asigna_canchas canchas ronda idx pairs,
        q.jugado = false ∧ q.score1 = none ∧ q.score2 = none ∧ q.ronda = ronda
  | _, [], q, hq => absurd hq (by simp [asigna_canchas])
  | idx, _ :: rest, q, hq => by
      simp only [asigna_canchas, List.mem_cons] at hq
      rcases hq with hq | hq
      · subst hq; exact ⟨rfl, rfl, rfl, rfl⟩
      · exact asigna_canchas_fresh canchas ronda (idx + 1) rest q hq

theorem setResult_length : ∀ (ps : List Partido) (i : Nat) (s1 s2 : Int),
    (setResult ps i s1 s2).length = ps.length
  | [], _, _, _ => rfl
  | _ :: _, 0, _, _ => rfl
  | _ :: ps, i + 1, s1, s2 => by
      simp [setResult, setResult_length ps i s1 s2]

theorem setResult_getD_self : ∀ (ps : List Partido) (i : Nat) (s1 s2 : Int),
    i < ps.length →
    (setResult ps i s1 s2).getD i default =
      { ps.getD i default with score1 := some s1, score2 := some s2, jugado := true }
  | [], i, _, _, hi => absurd hi (by simp)
  | _ :: _, 0, _, _, _ => rfl
  | _ :: ps, i + 1, s1, s2, hi => by
      simp only [setResult, List.getD_cons_succ]
      exact setResult_getD_self ps i s1 s2 (by simpa using Nat.lt_of_succ_lt_succ hi)

theorem setResult_getD_other : ∀ (ps : List Partido) (i j : Nat) (s1 s2 : Int),
    j ≠ i → (setResult ps i s1 s2).getD j default = ps.getD j default
  | [], _, _, _, _, _ => rfl
  | _ :: _, 0, 0, _, _, hj => absurd rfl hj
  | _ :: _, 0, _ + 1, _, _, _ => rfl
  | _ :: _, _ + 1, 0, _, _, _ => rfl
  | _ :: ps, i + 1, j + 1, s1, s2, hj => by
      simp only [setResult, List.getD_cons_succ]
      exact setResult_getD_other ps i j s1 s2 (fun hc => hj (by rw [hc]))

theorem setResult_mem : ∀ (ps : List Partido) (i : Nat) (s1 s2 : Int),
    ∀ q ∈ setResult ps i s1 s2,
      q ∈ ps ∨ ∃ p ∈ ps, q = { p with score1 := some s1, score2 := some s2, jugado := true }
  | [], _, _, _, _, hq => absurd hq (by simp [setResult])
  | p :: ps, 0, s1, s2, q, hq => by
      simp only [setResult, List.mem_cons] at hq
      rcases hq with hq | hq
      · exact Or.inr ⟨p, List.mem_cons_self p ps, hq⟩
      · exact Or.inl (List.mem_cons_of_mem p hq)
  | p :: ps, i + 1, s1, s2, q, hq => by
      simp only [setResult, List.mem_cons] at hq
      rcases hq with hq | hq
      · exact Or.inl (hq ▸ List.mem_cons_self p ps)
      · rcases setResult_mem ps i s1 s2 q hq with h | ⟨r, hr, he⟩
        · exact Or.inl (List.mem_cons_of_mem p h)
        · exact Or.inr ⟨r, List.mem_cons_of_mem p hr, he⟩

theorem ordered_names_length (t : Torneo) :
    (ordered_names t).length = t.competidores.length := by
  unfold ordered_names
  rw [List.length_map, List.length_insertionSort]

/-! The in-place credit sequence of `recompute_all_stats` matches the spec's
per-match attribution. -/

set_option maxHeartbeats 1600000 in
theorem applyMatch_eq_spec (cs : List Competidor) (p : Partido)
    (h : p.jugado = true → p.comp1 ≠ p.comp2 ∧ p.score1 ≠ none ∧ p.score2 ≠ none) :
    applyMatch cs p = specApplyMatch cs p := by
  by_cases hj : p.jugado = true
  · obtain ⟨hne, hs1, hs2⟩ := h hj
    obtain ⟨s1, hp1⟩ : ∃ s, p.score1 = some s := Option.ne_none_iff_exists'.mp hs1
    obtain ⟨s2, hp2⟩ : ∃ s, p.score2 = some s := Option.ne_none_iff_exists'.mp hs2
    have hne2 : ¬ p.comp2 = p.comp1 := fun hcon => hne hcon.symm
    unfold applyMatch specApplyMatch
    rw [if_pos hj, if_pos hj, hp1, hp2]
    simp only [Option.getD_some, updateComp, List.map_map]
    rcases lt_trichotomy s1 s2 with hcmp | hcmp | hcmp
    · have h1 : ¬ s1 > s2 := by omega
      have h2 : s2 > s1 := by omega
      have h3 : ¬ s1 = s2 := by omega
      have h4 : ¬ s2 = s1 := by omega
      rw [if_neg h1, if_pos h2]
      refine List.map_congr_left fun c _ => ?_
      obtain ⟨n, mi, pu, g, e, q, di, j⟩ := c
      by_cases hc1 : n = p.comp1
      · simp [Function.comp, specSide, hc1, hne, hne2, h1, h2, h3, h4]
      · by_cases hc2 : n = p.comp2
        · simp [Function.comp, specSide, POINTS_WIN, hc1, hc2, hne, hne2, h1, h2, h3, h4]
        · simp [Function.comp, specSide, hc1, hc2]
    · have h1 : ¬ s1 > s2 := by omega
      have h2 : ¬ s2 > s1 := by omega
      rw [if_neg h1, if_neg h2]
      refine List.map_congr_left fun c _ => ?_
      obtain ⟨n, mi, pu, g, e, q, di, j⟩ := c
      by_cases hc1 : n = p.comp1
      · simp [Function.comp, specSide, POINTS_DRAW, hc1, hne, hne2, h1, h2, hcmp]
      · by_cases hc2 : n = p.comp2
        · simp [Function.comp, specSide, POINTS_DRAW, hc1, hc2, hne, hne2, h1, h2, hcmp.symm]
        · simp [Function.comp, specSide, hc1, hc2]
    · have h1 : s1 > s2 := by omega
      have h2 : ¬ s2 > s1 := by omega
      have h3 : ¬ s1 = s2 := by omega
      have h4 : ¬ s2 = s1 := by omega
      rw [if_pos h1]
      refine List.map_congr_left fun c _ => ?_
      obtain ⟨n, mi, pu, g, e, q, di, j⟩ := c
      by_cases hc1 : n = p.comp1
      · simp [Function.comp, specSide, POINTS_WIN, hc1, hne, hne2, h1, h2, h3, h4]
      · by_cases hc2 : n = p.comp2
        · simp [Function.comp, specSide, POINTS_WIN, hc1, hc2, hne, hne2, h1, h2, h3, h4]
        · simp [Function.comp, specSide, hc1, hc2]
  · have hj2 : ¬ p.jugado = true := hj
    unfold applyMatch specApplyMatch
    rw [if_neg hj2, if_neg hj2]

theorem foldl_applyMatch_eq_spec : ∀ (ms : List Partido),
    (∀ p ∈ ms, p.jugado = true → p.comp1 ≠ p.comp2 ∧ p.score1 ≠ none ∧ p.score2 ≠ none) →
    ∀ init : List Competidor, ms.foldl applyMatch init = ms.foldl specApplyMatch init
  | [], _, _ => rfl
  | p :: ms, h, init => by
      simp only [List.foldl_cons]
      rw [applyMatch_eq_spec init p (h p (List.mem_cons_self p ms))]
      exact foldl_applyMatch_eq_spec ms
        (fun q hq hjq => h q (List.mem_cons_of_mem p hq) hjq) _

/-- Success of `generar_nueva_ronda` always produces the court-assigned match
list of some pairing and appends it to the log, bumping the round counter. -/
theorem generar_ok_elim {shuffle : List String → List String} {t t2 : Torneo}
    {ps : List Partido} (h : generar_nueva_ronda shuffle t = .ok (t2, ps)) :
    ∃ pairs : List (String × String),
      ps = asigna_canchas t.canchas (t.ronda_actual + 1) 0 pairs ∧
      t2 = { t with ronda_actual := t.ronda_actual + 1,
                    partidos := t.partidos ++ ps } := by
  simp only [generar_nueva_ronda] at h
  split at h
  · exact absurd h (by simp)
  · split at h
    · exact absurd h (by simp)
    · split at h
      · exact absurd h (by simp)
      · split at h
        · exact absurd h (by simp)
        · rename_i pairs heq
          simp only [Except.ok.injEq, Prod.mk.injEq] at h
          obtain ⟨ht2, hps⟩ := h
          refine ⟨pairs, hps.symm, ?_⟩
          rw [← ht2, hps]

/-! Stats consistency (`stats_consistent`) holds in every reachable state:
recomputation is idempotent and every operation either recomputes in full or
appends only unplayed matches. -/

theorem reset_reset (cs : List Competidor) :
    reset_stats_only (reset_stats_only cs) = reset_stats_only cs := by
  unfold reset_stats_only
  rw [List.map_map]
  exact List.map_congr_left fun c _ => rfl

theorem reset_updateComp (cs : List Competidor) (nm : String)
    (f : Competidor → Competidor) (hf : ∀ c, resetComp (f c) = resetComp c) :
    reset_stats_only (updateComp cs nm f) = reset_stats_only cs := by
  unfold reset_stats_only updateComp
  rw [List.map_map]
  refine List.map_congr_left fun c _ => ?_
  by_cases hc : c.nombre = nm
  · simp [Function.comp, hc, hf]
  · simp [Function.comp, hc]

theorem reset_applyMatch (cs : List Competidor) (p : Partido) :
    reset_stats_only (applyMatch cs p) = reset_stats_only cs := by
  have hpj : ∀ (xs : List Competidor) (nm : String),
      reset_stats_only (updateComp xs nm (fun c => { c with pj := c.pj + 1 })) =
        reset_stats_only xs :=
    fun xs nm => reset_updateComp xs nm _ (fun c => rfl)
  have hdif : ∀ (xs : List Competidor) (nm : String) (d : Int),
      reset_stats_only (updateComp xs nm (fun c => { c with dif := c.dif + d })) =
        reset_stats_only xs :=
    fun xs nm d => reset_updateComp xs nm _ (fun c => rfl)
  have hwin : ∀ (xs : List Competidor) (nm : String),
      reset_stats_only (updateComp xs nm
        (fun c => { c with pg := c.pg + 1, puntos := c.puntos + POINTS_WIN })) =
        reset_stats_only xs :=
    fun xs nm => reset_updateComp xs nm _ (fun c => rfl)
  have hpp : ∀ (xs : List Competidor) (nm : String),
      reset_stats_only (updateComp xs nm (fun c => { c with pp := c.pp + 1 })) =
        reset_stats_only xs :=
    fun xs nm => reset_updateComp xs nm _ (fun c => rfl)
  have hpe : ∀ (xs : List Competidor) (nm : String),
      reset_stats_only (updateComp xs nm (fun c => { c with pe := c.pe + 1 })) =
        reset_stats_only xs :=
    fun xs nm => reset_updateComp xs nm _ (fun c => rfl)
  have hdraw : ∀ (xs : List Competidor) (nm : String),
      reset_stats_only (updateComp xs nm
        (fun c => { c with puntos := c.puntos + POINTS_DRAW })) =
        reset_stats_only xs :=
    fun xs nm => reset_updateComp xs nm _ (fun c => rfl)
  simp only [applyMatch]
  by_cases hj : p.jugado = true
  · rw [if_pos hj]
    rcases lt_trichotomy (p.score1.getD 0 : Int) (p.score2.getD 0) with hc | hc | hc
    · rw [if_neg (show ¬ p.score1.getD 0 > p.score2.getD 0 by omega),
          if_pos (show p.score2.getD 0 > p.score1.getD 0 by omega)]
      rw [hpp, hwin, hdif, hdif, hpj, hpj]
    · rw [if_neg (show ¬ p.score1.getD 0 > p.score2.getD 0 by omega),
          if_neg (show ¬ p.score2.getD 0 > p.score1.getD 0 by omega)]
      rw [hdraw, hdraw, hpe, hpe, hdif, hdif, hpj, hpj]
    · rw [if_pos (show p.score1.getD 0 > p.score2.getD 0 by omega)]
      rw [hpp, hwin, hdif, hdif, hpj, hpj]
  · rw [if_neg hj]

theorem reset_foldl : ∀ (ms : List Partido) (init : List Competidor),
    reset_stats_only (ms.foldl applyMatch init) = reset_stats_only init
  | [], _ => rfl
  | p :: ms, init => by
      simp only [List.foldl_cons]
      rw [reset_foldl ms (applyMatch init p), reset_applyMatch]

theorem recompute_all_stats_idem (t : Torneo) :
    stats_consistent (recompute_all_stats t) := by
  unfold stats_consistent recompute_all_stats
  congr 1
  rw [reset_foldl, reset_reset]

theorem foldl_unplayed : ∀ (ms : List Partido),
    (∀ q ∈ ms, q.jugado = false) → ∀ init : List Competidor,
    ms.foldl applyMatch init = init
  | [], _, _ => rfl
  | q :: ms, h, init => by
      simp only [List.foldl_cons]
      have hq : applyMatch init q = init := by
        unfold applyMatch
        rw [if_neg (by rw [h q (List.mem_cons_self q ms)]; exact Bool.false_ne_true)]
      rw [hq]
      exact foldl_unplayed ms (fun r hr => h r (List.mem_cons_of_mem q hr)) init

/-- Every core operation leaves the tournament stats-consistent: result entry
and import recompute in full, the reset zeroes everything, and round
generation appends only unplayed matches, which contribute nothing. -/
theorem stats_consistent_ops :
    (∀ (t : Torneo) (i : Nat) (s1 s2 : Int),
      stats_consistent (registrar_resultado t i s1 s2)) ∧
    (∀ d : TorneoDoc, stats_consistent (from_json d)) ∧
    (∀ t : Torneo, stats_consistent (reset_all_matches t)) ∧
    (∀ (shuffle : List String → List String) (t t2 : Torneo) (ps : List Partido),
      stats_consistent t → generar_nueva_ronda shuffle t = .ok (t2, ps) →
      stats_consistent t2) := by
  refine ⟨fun t i s1 s2 => recompute_all_stats_idem _,
          fun d => recompute_all_stats_idem _,
          fun t => ?_, ?_⟩
  · unfold stats_consistent recompute_all_stats reset_all_matches
    simp only [List.foldl_nil]
    congr 1
    exact reset_reset t.competidores
  · intro shuffle t t2 ps hcons h
    obtain ⟨pairs, hps, ht2⟩ := generar_ok_elim h
    have hfold : t.partidos.foldl applyMatch (reset_stats_only t.competidores) =
        t.competidores := congrArg Torneo.competidores hcons
    have hfresh : ∀ q ∈ ps, q.jugado = false := by
      intro q hq
      rw [hps] at hq
      exact (asigna_canchas_fresh t.canchas (t.ronda_actual + 1) 0 pairs q hq).1
    rw [ht2]
    unfold stats_consistent recompute_all_stats
    simp only [List.foldl_append]
    congr 1
    rw [hfold, foldl_unplayed ps hfresh]

/-! Claim theorems. -/

/-- C1 (counterexample): on `c1t` the total-rounds cap `2 - 1 = 1` is already
reached, yet `generar_nueva_ronda` succeeds instead of failing with a
round-cap error: the method performs no cap check. -/
theorem c1_counterexample :
    total_rondas_posibles c1t = 1 ∧ c1t.ronda_actual = 1 ∧
    c1t.finalizado = false ∧
    (generar_nueva_ronda (fun l => l) c1t).isOk = true := by decide

/-- C1 (amended): `generar_nueva_ronda` enforces no total-rounds cap.  With
the tournament not finalized, at least two competitors and an even count (or
byes allowed), a call made when `competitorCount - 1` rounds have already
been generated still succeeds and appends a further, nonempty round. -/
theorem c1_generar_after_cap (shuffle : List String → List String) (t : Torneo)
    (hfin : t.finalizado = false) (hn : 2 ≤ t.competidores.length)
    (hpar : t.competidores.length % 2 = 0 ∨ t.permitir_byes = true)
    (hcap : t.ronda_actual = total_rondas_posibles t) :
    ∃ (t2 : Torneo) (ps : List Partido),
      generar_nueva_ronda shuffle t = .ok (t2, ps) ∧
      t2.ronda_actual = t.ronda_actual + 1 ∧ ps ≠ [] ∧
      t2.partidos = t.partidos ++ ps := by
  have hpar2 : (t.competidores.length % 2 == 1 && !t.permitir_byes) = false := by
    rcases hpar with hp | hp
    · have hb : (t.competidores.length % 2 == 1) = false := by simp [hp]
      rw [hb, Bool.false_and]
    · rw [hp]
      simp
  have hr1 : 1 ≤ t.ronda_actual := by
    unfold total_rondas_posibles at hcap
    rw [if_pos (by omega)] at hcap
    omega
  have hrb : (t.ronda_actual + 1 == 1) = false := by
    rw [Bool.eq_false_iff]
    intro hbe
    have hx : t.ronda_actual + 1 = 1 := by simpa using hbe
    omega
  have hpc : pairings_competitive t = .ok (sourcePairs (ordered_names t)) := by
    unfold pairings_competitive
    have hc : ((ordered_names t).length % 2 == 1 && !t.permitir_byes) = false := by
      rw [ordered_names_length]
      exact hpar2
    simp only [hc, Bool.false_eq_true, if_false]
  have hlen2 : 2 ≤ (ordered_names t).length := by
    rw [ordered_names_length]
    exact hn
  obtain ⟨a, b, rest, ho⟩ : ∃ a b rest, ordered_names t = a :: b :: rest := by
    cases h1 : ordered_names t with
    | nil => rw [h1] at hlen2; simp at hlen2
    | cons a tail =>
        cases h2 : tail with
        | nil => rw [h1, h2] at hlen2; simp at hlen2
        | cons b rest => exact ⟨a, b, rest, rfl⟩
  simp only [generar_nueva_ronda, hfin, Bool.false_eq_true, if_false,
    List.length_map, hpar2, hrb, hpc,
    if_neg (by omega : ¬ t.competidores.length < 2)]
  refine ⟨_, _, rfl, rfl, ?_, rfl⟩
  rw [ho, sourcePairs_cons_cons]
  simp [asigna_canchas]

/-- C1 (witness): the amended statement at the concrete tournament `c1t`. -/
theorem c1_witness :
    ∃ (t2 : Torneo) (ps : List Partido),
      generar_nueva_ronda (fun l => l) c1t = .ok (t2, ps) ∧
      t2.ronda_actual = c1t.ronda_actual + 1 ∧ ps ≠ [] ∧
      t2.partidos = c1t.partidos ++ ps :=
  c1_generar_after_cap (fun l => l) c1t (by decide) (by decide)
    (Or.inl (by decide)) (by decide)

/-- C2 (counterexample): on the finalized tournament `c2t`,
`registrar_resultado` with a negative score succeeds and mutates the state
(the match gets the scores and is marked played), contradicting the claimed
rejection with unchanged state. -/
theorem c2_counterexample :
    c2t.finalizado = true ∧
    ((registrar_resultado c2t 0 (-1) 0).partidos.getD 0 default).score1 = some (-1) ∧
    ((registrar_resultado c2t 0 (-1) 0).partidos.getD 0 default).jugado = true ∧
    registrar_resultado c2t 0 (-1) 0 ≠ c2t := by decide

/-- C2 (amended): `registrar_resultado` performs no finalization check and no
score-sign check.  For any match index in range it sets both scores exactly as
given (negative included), marks the match played, leaves every other match
and the structural fields of the target match unchanged, and replaces the
competitor stats by a full recomputation over the whole updated match log. -/
theorem c2_registrar_resultado_spec (t : Torneo) (i : Nat) (s1 s2 : Int)
    (hi : i < t.partidos.length) :
    ((registrar_resultado t i s1 s2).partidos.getD i default).score1 = some s1 ∧
    ((registrar_resultado t i s1 s2).partidos.getD i default).score2 = some s2 ∧
    ((registrar_resultado t i s1 s2).partidos.getD i default).jugado = true ∧
    ((registrar_resultado t i s1 s2).partidos.getD i default).comp1 =
      (t.partidos.getD i default).comp1 ∧
    ((registrar_resultado t i s1 s2).partidos.getD i default).comp2 =
      (t.partidos.getD i default).comp2 ∧
    ((registrar_resultado t i s1 s2).partidos.getD i default).ronda =
      (t.partidos.getD i default).ronda ∧
    ((registrar_resultado t i s1 s2).partidos.getD i default).cancha =
      (t.partidos.getD i default).cancha ∧
    (∀ j, j ≠ i →
      (registrar_resultado t i s1 s2).partidos.getD j default =
        t.partidos.getD j default) ∧
    (registrar_resultado t i s1 s2).partidos.length = t.partidos.length ∧
    (registrar_resultado t i s1 s2).competidores =
      (setResult t.partidos i s1 s2).foldl applyMatch (reset_stats_only t.competidores) ∧
    (registrar_resultado t i s1 s2).finalizado = t.finalizado ∧
    (registrar_resultado t i s1 s2).ronda_actual = t.ronda_actual := by
  have hp : (registrar_resultado t i s1 s2).partidos = setResult t.partidos i s1 s2 := rfl
  have hself := setResult_getD_self t.partidos i s1 s2 hi
  refine ⟨by rw [hp, hself], by rw [hp, hself], by rw [hp, hself],
          by rw [hp, hself], by rw [hp, hself], by rw [hp, hself], by rw [hp, hself],
          fun j hj => by rw [hp, setResult_getD_other t.partidos i j s1 s2 hj],
          by rw [hp, setResult_length], rfl, rfl, rfl⟩

/-- C2 (witness): the amended statement applied at the concrete tournament
`c2t`, match 0. -/
theorem c2_witness :
    ((registrar_resultado c2t 0 5 3).partidos.getD 0 default).score1 = some 5 :=
  (c2_registrar_resultado_spec c2t 0 5 3 (by decide)).1

/-- C3 (counterexample): on the finalized tournament `c3t`,
`registrar_competidor` with a fresh name succeeds and extends the registry,
contradicting the claimed finalization failure with unchanged registry. -/
theorem c3_counterexample :
    c3t.finalizado = true ∧
    registrar_competidor c3t "B" none =
      .ok { c3t with competidores := c3t.competidores ++ [{ nombre := "B" }] } := by
  exact ⟨rfl, by decide⟩

/-- C3 (amended): `registrar_competidor` fails exactly on a duplicate name
(returning an error, so the registry is untouched); on a fresh name it appends
a competitor with all-zero stats — regardless of the finalized flag, which the
method never consults (the UI layer disables registration when finalized). -/
theorem c3_registrar_competidor_spec (t : Torneo) (nombre : String)
    (miembros : Option (String × String)) :
    ((∃ c ∈ t.competidores, c.nombre = nombre) →
      registrar_competidor t nombre miembros =
        .error "Ya existe un competidor con ese nombre.") ∧
    ((∀ c ∈ t.competidores, c.nombre ≠ nombre) →
      registrar_competidor t nombre miembros =
        .ok { t with competidores := t.competidores ++
          [{ nombre := nombre, miembros := miembros, puntos := 0, pg := 0,
             pe := 0, pp := 0, dif := 0, pj := 0 }] }) := by
  constructor
  · rintro ⟨c, hc, he⟩
    unfold registrar_competidor
    rw [if_pos]
    exact List.any_eq_true.mpr ⟨c, hc, by simp [he]⟩
  · intro h
    unfold registrar_competidor
    rw [if_neg]
    intro hcon
    obtain ⟨c, hc, he⟩ := List.any_eq_true.mp hcon
    exact h c hc (by simpa using he)

/-- C3 (witness): both branches of the amended statement at concrete
inputs. -/
theorem c3_witness :
    registrar_competidor c3t "A" none =
      .error "Ya existe un competidor con ese nombre." ∧
    registrar_competidor c3t "B" none =
      .ok { c3t with competidores := c3t.competidores ++
        [{ nombre := "B", miembros := none, puntos := 0, pg := 0,
           pe := 0, pp := 0, dif := 0, pj := 0 }] } :=
  ⟨(c3_registrar_competidor_spec c3t "A" none).1 ⟨{ nombre := "A" }, by decide, rfl⟩,
   (c3_registrar_competidor_spec c3t "B" none).2 (by decide)⟩

/-- C4: `recompute_all_stats` starts from zeroed stats and folds the
spec-described attribution over the match log: unplayed matches contribute
nothing, a played match credits both sides one match played, the signed score
difference, and win/draw/loss points as described (`specApplyMatch` and
`specSide` are transcribed from the spec).  The hypothesis restricts to
well-formed logs: a played match has both scores and two distinct sides. -/
theorem c4_recompute_spec (t : Torneo)
    (h : ∀ p ∈ t.partidos, p.jugado = true →
      p.comp1 ≠ p.comp2 ∧ p.score1 ≠ none ∧ p.score2 ≠ none) :
    recompute_all_stats t =
      { t with competidores :=
          t.partidos.foldl specApplyMatch (reset_stats_only t.competidores) } ∧
    (∀ c ∈ reset_stats_only t.competidores,
      c.puntos = 0 ∧ c.pg = 0 ∧ c.pe = 0 ∧ c.pp = 0 ∧ c.dif = 0 ∧ c.pj = 0) := by
  constructor
  · unfold recompute_all_stats
    rw [foldl_applyMatch_eq_spec t.partidos h]
  · intro c hc
    obtain ⟨d, _, rfl⟩ := List.mem_map.mp hc
    simp [resetComp]

/-- C4 (witness): the spec-equivalence at the concrete tournament `c4t` (one
played draw, one pending match). -/
theorem c4_witness :
    recompute_all_stats c4t =
      { c4t with competidores :=
          c4t.partidos.foldl specApplyMatch (reset_stats_only c4t.competidores) } :=
  (c4_recompute_spec c4t (by decide)).1

/-- C5 (counterexample): on `c5t` (Parejas mode, every competitor at zero
points) the leaderboard comes out in the order ["X !", "X"], which is not
ascending by competitor name since "X" strictly precedes "X !": the zero-point
fallback sorts by the display label (name plus member names), not by the
name. -/
theorem c5_counterexample :
    pts_total c5t = 0 ∧
    (leaderboard_df c5t).map (fun c => c.nombre) = ["X !", "X"] ∧
    pyStrLt "X" "X !" = true := by decide

/-- C5 (amended): the leaderboard is a permutation of the competitors,
sorted — when any points have been scored — descending by points, then
descending by differential, then descending by wins, with ties broken
ascending by the display label, and — when every competitor has zero
points — ascending by display label only.  In Individual mode the display
label coincides with the competitor name. -/
theorem c5_leaderboard_spec (t : Torneo) :
    List.Perm (leaderboard_df t) t.competidores ∧
    (pts_total t = 0 → (leaderboard_df t).Sorted (nameAsc t.modo)) ∧
    (pts_total t ≠ 0 → (leaderboard_df t).Sorted (rankLE t.modo)) ∧
    (∀ c : Competidor, display_name "Individual" c = c.nombre) := by
  refine ⟨?_, ?_, ?_, ?_⟩
  · unfold leaderboard_df
    by_cases h0 : pts_total t = 0
    · rw [if_pos h0]
      exact List.perm_insertionSort _ _
    · rw [if_neg h0]
      exact List.perm_insertionSort _ _
  · intro h0
    unfold leaderboard_df
    rw [if_pos h0]
    exact List.sorted_insertionSort _ _
  · intro h0
    unfold leaderboard_df
    rw [if_neg h0]
    exact List.sorted_insertionSort _ _
  · intro c
    unfold display_name
    rw [if_neg (by decide : ¬ ("Individual" : String) = "Parejas")]

/-- C5 (witness): the amended sortedness at concrete tournaments, one in the
zero-point branch and one in the scored branch. -/
theorem c5_witness :
    (leaderboard_df c5t).Sorted (nameAsc c5t.modo) ∧
    (leaderboard_df c5u).Sorted (rankLE c5u.modo) :=
  ⟨(c5_leaderboard_spec c5t).2.1 (by decide),
   (c5_leaderboard_spec c5u).2.2.1 (by decide)⟩

/-- C6: competitive pairing (rounds after the first) returns exactly the
adjacent pairing of the ranked order — rank 1 vs rank 2, rank 3 vs rank 4,
and so on — where the ranked order is the competitor list sorted by the
standings keys. -/
theorem c6_pairings_adjacent (t : Torneo)
    (h : t.competidores.length % 2 = 0 ∨ t.permitir_byes = true) :
    pairings_competitive t = .ok (specAdjacentPairs (ordered_names t)) ∧
    ∃ ranked : List Competidor,
      List.Perm ranked t.competidores ∧ ranked.Sorted (rankLE t.modo) ∧
      ordered_names t = ranked.map (fun c => c.nombre) := by
  constructor
  · unfold pairings_competitive
    have hc : ((ordered_names t).length % 2 == 1 && !t.permitir_byes) = false := by
      rw [ordered_names_length]
      rcases h with hp | hp
      · have hb : (t.competidores.length % 2 == 1) = false := by simp [hp]
        rw [hb, Bool.false_and]
      · rw [hp]
        simp
    simp only [hc, Bool.false_eq_true, if_false]
    rw [sourcePairs_eq_spec]
  · exact ⟨t.competidores.insertionSort (rankLE t.modo),
      List.perm_insertionSort _ _, List.sorted_insertionSort _ _, rfl⟩

/-- C6 (witness): on the concrete tournament `c6t` the ranked order is
[A, B, C, D] and the generated pairing is exactly (A vs B) and (C vs D). -/
theorem c6_witness :
    ordered_names c6t = ["A", "B", "C", "D"] ∧
    pairings_competitive c6t = .ok [("A", "B"), ("C", "D")] := by
  have h := (c6_pairings_adjacent c6t (Or.inl (by decide))).1
  exact ⟨by decide, by rw [h]; decide⟩

/-- C7: in a successfully generated round, the match at position `i` (in
generation order) is assigned the court label `canchas[i % canchas.length]`
when at least one court is configured, and no court when none are. -/
theorem c7_court_assignment (shuffle : List String → List String) (t t2 : Torneo)
    (ps : List Partido) (h : generar_nueva_ronda shuffle t = .ok (t2, ps))
    (i : Nat) (hi : i < ps.length) :
    (ps.getD i default).cancha =
      (if t.canchas.isEmpty then none
       else some (t.canchas.getD (i % t.canchas.length) "")) := by
  obtain ⟨pairs, hps, _⟩ := generar_ok_elim h
  subst hps
  have hi2 : i < pairs.length := by
    rw [asigna_canchas_length] at hi
    exact hi
  have hg := asigna_canchas_getD t.canchas (t.ronda_actual + 1) pairs 0 i hi2
  simpa using hg

/-- C7 (witness): generating round 1 of `c7t` (one configured court) puts the
single match on court "C1". -/
theorem c7_witness : (c7ps.getD 0 default).cancha = some "C1" := by
  have h := c7_court_assignment (fun l => l) c7t c7t2 c7ps (by decide) 0 (by decide)
  rw [h]
  decide

/-- C8: exporting and immediately importing the snapshot reproduces the match
log and every structural field unconditionally, and reproduces the whole
state — in particular leaderboard ordering and standings — whenever the
exported state's stats agree with recomputation from its log (which holds in
every reachable state because every stat mutation recomputes in full). -/
theorem c8_roundtrip (t : Torneo) :
    (from_json (to_json t)).partidos = t.partidos ∧
    (from_json (to_json t)).nombre = t.nombre ∧
    (from_json (to_json t)).modo = t.modo ∧
    (from_json (to_json t)).ronda_actual = t.ronda_actual ∧
    (from_json (to_json t)).canchas = t.canchas ∧
    (from_json (to_json t)).permitir_byes = t.permitir_byes ∧
    (from_json (to_json t)).finalizado = t.finalizado ∧
    (stats_consistent t → from_json (to_json t) = t) ∧
    (stats_consistent t → leaderboard_df (from_json (to_json t)) = leaderboard_df t) := by
  have he : from_json (to_json t) = recompute_all_stats t := rfl
  refine ⟨rfl, rfl, rfl, rfl, rfl, rfl, rfl, fun h => he.trans h, fun h => by rw [he, h]⟩

/-- C8 (witness): the round trip reproduces the concrete consistent
tournament `c8t` exactly. -/
theorem c8_witness : from_json (to_json c8t) = c8t :=
  (c8_roundtrip c8t).2.2.2.2.2.2.2.1 (by decide)

/-- C9: the invariant "a match is marked played exactly when both scores are
present" is preserved by round generation, by result recording and by the
match reset. -/
theorem c9_invariant_preserved :
    (∀ (shuffle : List String → List String) (t t2 : Torneo) (ps : List Partido),
      scores_ok t → generar_nueva_ronda shuffle t = .ok (t2, ps) → scores_ok t2) ∧
    (∀ (t : Torneo) (i : Nat) (s1 s2 : Int),
      scores_ok t → scores_ok (registrar_resultado t i s1 s2)) ∧
    (∀ t : Torneo, scores_ok t → scores_ok (reset_all_matches t)) := by
  refine ⟨?_, ?_, ?_⟩
  · intro shuffle t t2 ps hok h
    obtain ⟨pairs, hps, ht2⟩ := generar_ok_elim h
    rw [ht2]
    intro q hq
    rcases List.mem_append.mp hq with hq | hq
    · exact hok q hq
    · rw [hps] at hq
      obtain ⟨hj, hs1, hs2, _⟩ :=
        asigna_canchas_fresh t.canchas (t.ronda_actual + 1) 0 pairs q hq
      constructor
      · intro hcon
        rw [hj] at hcon
        exact absurd hcon Bool.false_ne_true
      · rintro ⟨hc1, _⟩
        exact absurd hs1 hc1
  · intro t i s1 s2 hok q hq
    have hq2 : q ∈ setResult t.partidos i s1 s2 := hq
    rcases setResult_mem t.partidos i s1 s2 q hq2 with hmem | ⟨p, _, rfl⟩
    · exact hok q hmem
    · simp
  · intro t _ q hq
    exact absurd hq (by simp [reset_all_matches])

/-- C9 (witness): the three preservation statements at the concrete valid
tournament `c9t`. -/
theorem c9_witness :
    scores_ok c9t2 ∧
    scores_ok (registrar_resultado c9t 1 4 2) ∧
    scores_ok (reset_all_matches c9t) :=
  ⟨c9_invariant_preserved.1 (fun l => l) c9t c9t2 c9ps (by decide) (by decide),
   c9_invariant_preserved.2.1 c9t 1 4 2 (by decide),
   c9_invariant_preserved.2.2 c9t (by decide)⟩

/-- C10: importing a snapshot discards the stored per-competitor stat fields
and recomputes them from the match log: two documents that agree after
zeroing the stored stats (same names and members, same matches and same
structural fields — so they differ at most in the stored stats) import to
identical tournaments and identical leaderboards. -/
theorem c10_import_ignores_stats (d1 d2 : TorneoDoc)
    (hn : d1.nombre = d2.nombre) (hm : d1.modo = d2.modo)
    (hr : d1.ronda_actual = d2.ronda_actual)
    (hc : reset_stats_only d1.competidores = reset_stats_only d2.competidores)
    (hp : d1.partidos = d2.partidos) (hca : d1.canchas = d2.canchas)
    (hb : d1.permitir_byes = d2.permitir_byes)
    (hf : d1.finalizado = d2.finalizado) :
    from_json d1 = from_json d2 ∧
    leaderboard_df (from_json d1) = leaderboard_df (from_json d2) := by
  have h1 : from_json d1 =
      { nombre := d1.nombre, modo := d1.modo, ronda_actual := d1.ronda_actual,
        competidores := d1.partidos.foldl applyMatch (reset_stats_only d1.competidores),
        partidos := d1.partidos, canchas := d1.canchas,
        permitir_byes := d1.permitir_byes, finalizado := d1.finalizado } := rfl
  have h2 : from_json d2 =
      { nombre := d2.nombre, modo := d2.modo, ronda_actual := d2.ronda_actual,
        competidores := d2.partidos.foldl applyMatch (reset_stats_only d2.competidores),
        partidos := d2.partidos, canchas := d2.canchas,
        permitir_byes := d2.permitir_byes, finalizado := d2.finalizado } := rfl
  have he : from_json d1 = from_json d2 := by
    rw [h1, h2, hn, hm, hr, hc, hp, hca, hb, hf]
  exact ⟨he, by rw [he]⟩

/-- C10 (witness): the two concrete documents `c10d1` and `c10d2`, identical
except for garbled stored stats in the second, import to the same
tournament. -/
theorem c10_witness : from_json c10d1 = from_json c10d2 :=
  (c10_import_ignores_stats c10d1 c10d2 rfl rfl rfl (by decide) rfl rfl rfl rfl).1

end Padel
